import Mathlib

/-!
Verification of the AcFella acoustic physics engine against its
natural-language specification.

The Python sources under src/acoustic_fella/core are shallowly embedded:
machine floats are idealised as exact rationals, except where IEEE NaN
propagation is itself the subject of a claim, in which case a dedicated
float-with-NaN carrier type is used.  Square roots and logarithms are
irrational, so the executable definitions carry squared frequencies or
symbolic results, and the theorems connect them to the real-valued
formulas through Real.sqrt and Real.log in their statements.
-/

namespace AcFella

/-! ## Room modes (src/acoustic_fella/core/room_modes.py) -/

/-- Mode classification from room_modes.py: axial, tangential or oblique. -/
inductive ModeType where
  | axial
  | tangential
  | oblique
deriving DecidableEq, Repr

/-- Embedding of the RoomMode dataclass.  The Python object stores the
frequency `f = (c/2)*sqrt((p/L)^2+(q/W)^2+(r/H)^2)`, an irrational real;
we store its square `freqSq`, an exact rational, and the theorems recover
`f = Real.sqrt freqSq`.  The derived wavelength field is omitted (no claim
mentions it). -/
structure RoomMode where
  p : ℕ
  q : ℕ
  r : ℕ
  mode_type : ModeType
  freqSq : ℚ
deriving DecidableEq, Repr

/-- Embedding of the RoomModeCalculator constructor state: dimensions,
unit flag and temperature, as stored by `__init__`. -/
structure RoomModeCalculator where
  length : ℚ
  width : ℚ
  height : ℚ
  use_metric : Bool
  temperature_c : ℚ
deriving DecidableEq, Repr

namespace RoomModeCalculator

/-- Embedding of `RoomModeCalculator.__init__`.  The Python constructor
performs no validation whatsoever: it stores the dimensions and returns.
The `Except` wrapper records that no exception can be raised; the source
has no raise statement and no dimension check. -/
def init (length width height : ℚ) (use_metric : Bool) (temperature_c : ℚ) :
    Except String RoomModeCalculator :=
  Except.ok ⟨length, width, height, use_metric, temperature_c⟩

/-- Speed of sound with temperature correction, from `__init__`:
`c = 331.3 + 0.606*T`, multiplied by 3.281 for imperial input. -/
def speed_of_sound (c : RoomModeCalculator) : ℚ :=
  if c.use_metric then 331.3 + 0.606 * c.temperature_c
  else (331.3 + 0.606 * c.temperature_c) * 3.281

/-- Square of the Rayleigh mode frequency of `calculate_mode_frequency`:
the source computes `(c/2) * sqrt((p/L)^2 + (q/W)^2 + (r/H)^2)`; this is
the exact square of that value. -/
def calculate_mode_freqSq (c : RoomModeCalculator) (p q r : ℕ) : ℚ :=
  (speed_of_sound c / 2) ^ 2 *
    (((p : ℚ) / c.length) ^ 2 + ((q : ℚ) / c.width) ^ 2 + ((r : ℚ) / c.height) ^ 2)

/-- Embedding of `get_mode_type`: count the non-zero indices; 1 is axial,
2 is tangential, anything else is oblique (the source's else branch). -/
def get_mode_type (p q r : ℕ) : ModeType :=
  let active_dims := (if 0 < p then 1 else 0) + (if 0 < q then 1 else 0) +
    (if 0 < r then 1 else 0)
  if active_dims = 1 then ModeType.axial
  else if active_dims = 2 then ModeType.tangential
  else ModeType.oblique

/-- Ordering used by `modes.sort(key=lambda m: m.frequency)`: comparing
frequencies is equivalent to comparing their squares, both nonnegative. -/
def modeLE (a b : RoomMode) : Prop := a.freqSq ≤ b.freqSq

instance : DecidableRel modeLE := fun a b => inferInstanceAs (Decidable (a.freqSq ≤ b.freqSq))

instance : IsTotal RoomMode modeLE := ⟨fun a b => le_total a.freqSq b.freqSq⟩

instance : IsTrans RoomMode modeLE := ⟨fun _ _ _ h h2 => le_trans h h2⟩

/-- Filter and construction step of the enumeration loop body in
`calculate_all_modes`: skip (0,0,0); keep the mode when `freq <= max_frequency`.
Since `freq = sqrt freqSq` with `freqSq > 0`, the float test `freq <= F`
is encoded exactly as `0 ≤ F ∧ freqSq ≤ F^2` (the equivalence with the
real-valued test is proved, not assumed, in the claim theorem). -/
def modeOfTriple (c : RoomModeCalculator) (max_frequency : ℚ) :
    ℕ × ℕ × ℕ → Option RoomMode :=
  fun t =>
    let p := t.1; let q := t.2.1; let r := t.2.2
    if p = 0 ∧ q = 0 ∧ r = 0 then none
    else if 0 ≤ max_frequency ∧ calculate_mode_freqSq c p q r ≤ max_frequency ^ 2
    then some ⟨p, q, r, get_mode_type p q r, calculate_mode_freqSq c p q r⟩
    else none

/-- Embedding of `calculate_all_modes`: triple loop over orders 0..N,
skip (0,0,0), keep modes with frequency below the ceiling, sort by
frequency. -/
def calculate_all_modes (c : RoomModeCalculator) (max_frequency : ℚ)
    (max_mode_order : ℕ) : List RoomMode :=
  let rng := List.range (max_mode_order + 1)
  let candidates := rng.product (rng.product rng)
  let modes := candidates.filterMap (modeOfTriple c max_frequency)
  modes.insertionSort modeLE

end RoomModeCalculator

/-! ## Absorption and reverberation time (src/acoustic_fella/core/absorption.py) -/

/-- Embedding of the SurfaceType enum. -/
inductive SurfaceType where
  | concrete
  | drywall
  | plywood
  | carpet
  | hardwood
  | glass
  | brick
  | acoustic_tile
deriving DecidableEq, Repr

/-- Embedding of the ABSORPTION_COEFFICIENTS table; a frequency outside the
six octave centers falls back to the default coefficient 0.1, mirroring
`.get(frequency, 0.1)`. -/
def absorptionCoefficient (t : SurfaceType) (frequency : ℕ) : ℚ :=
  match t, frequency with
  | .concrete, 125 => 0.01 | .concrete, 250 => 0.01 | .concrete, 500 => 0.02
  | .concrete, 1000 => 0.02 | .concrete, 2000 => 0.02 | .concrete, 4000 => 0.03
  | .drywall, 125 => 0.29 | .drywall, 250 => 0.10 | .drywall, 500 => 0.05
  | .drywall, 1000 => 0.04 | .drywall, 2000 => 0.07 | .drywall, 4000 => 0.09
  | .plywood, 125 => 0.28 | .plywood, 250 => 0.22 | .plywood, 500 => 0.17
  | .plywood, 1000 => 0.09 | .plywood, 2000 => 0.10 | .plywood, 4000 => 0.11
  | .carpet, 125 => 0.01 | .carpet, 250 => 0.02 | .carpet, 500 => 0.06
  | .carpet, 1000 => 0.15 | .carpet, 2000 => 0.25 | .carpet, 4000 => 0.45
  | .hardwood, 125 => 0.15 | .hardwood, 250 => 0.11 | .hardwood, 500 => 0.10
  | .hardwood, 1000 => 0.07 | .hardwood, 2000 => 0.06 | .hardwood, 4000 => 0.07
  | .glass, 125 => 0.35 | .glass, 250 => 0.25 | .glass, 500 => 0.18
  | .glass, 1000 => 0.12 | .glass, 2000 => 0.07 | .glass, 4000 => 0.04
  | .brick, 125 => 0.03 | .brick, 250 => 0.03 | .brick, 500 => 0.03
  | .brick, 1000 => 0.04 | .brick, 2000 => 0.05 | .brick, 4000 => 0.07
  | .acoustic_tile, 125 => 0.10 | .acoustic_tile, 250 => 0.20
  | .acoustic_tile, 500 => 0.40 | .acoustic_tile, 1000 => 0.55
  | .acoustic_tile, 2000 => 0.60 | .acoustic_tile, 4000 => 0.55
  | _, _ => 0.1

/-- Embedding of the Surface dataclass (the name string is irrelevant to
every claim and omitted). -/
structure Surface where
  area : ℚ
  surface_type : SurfaceType
deriving DecidableEq, Repr

/-- Surface.get_absorption: `area * coefficient(material, frequency)`. -/
def Surface.get_absorption (s : Surface) (frequency : ℕ) : ℚ :=
  s.area * absorptionCoefficient s.surface_type frequency

/-- Embedding of the AbsorptionCalculator state: dimensions, unit flag and
the mutable surface list (the source initialises it with six default
surfaces but callers may reassign materials, so the claims quantify over
arbitrary surface lists). -/
structure AbsorptionCalculator where
  length : ℚ
  width : ℚ
  height : ℚ
  use_metric : Bool
  surfaces : List Surface
deriving DecidableEq, Repr

namespace AbsorptionCalculator

/-- Octave band center frequencies, the FREQUENCIES class constant. -/
def FREQUENCIES : List ℕ := [125, 250, 500, 1000, 2000, 4000]

/-- Embedding of `__init__` together with `_setup_default_surfaces`:
hardwood floor, drywall ceiling and four drywall walls. -/
def init (length width height : ℚ) (use_metric : Bool) : AbsorptionCalculator :=
  { length := length, width := width, height := height, use_metric := use_metric
    surfaces :=
      [⟨length * width, .hardwood⟩,
       ⟨length * width, .drywall⟩,
       ⟨width * height, .drywall⟩,
       ⟨width * height, .drywall⟩,
       ⟨length * height, .drywall⟩,
       ⟨length * height, .drywall⟩] }

/-- The sabine_constant attribute: 0.161 metric, 0.049 imperial. -/
def sabine_constant (c : AbsorptionCalculator) : ℚ :=
  if c.use_metric then 0.161 else 0.049

/-- Room volume property. -/
def volume (c : AbsorptionCalculator) : ℚ := c.length * c.width * c.height

/-- Total surface area property. -/
def surface_area (c : AbsorptionCalculator) : ℚ :=
  2 * (c.length * c.width + c.length * c.height + c.width * c.height)

/-- calculate_total_absorption: sum of per-surface absorption. -/
def calculate_total_absorption (c : AbsorptionCalculator) (frequency : ℕ) : ℚ :=
  (c.surfaces.map (fun s => s.get_absorption frequency)).sum

/-- calculate_average_alpha: total absorption over surface area. -/
def calculate_average_alpha (c : AbsorptionCalculator) (frequency : ℕ) : ℚ :=
  calculate_total_absorption c frequency / surface_area c

end AbsorptionCalculator

/-- Result carrier for the T60 computations.  The Python functions return a
float that is either `inf`, an exact arithmetic value, or the Eyring
expression `kV / (-S * ln(1 - alpha))`, whose logarithm is irrational; the
`eyring` constructor records the three parameters of that expression and
`T60Value.evalsTo` below gives it its real-number meaning. -/
inductive T60Value where
  | inf
  | val (x : ℚ)
  | eyring (kV S alpha : ℚ)
deriving DecidableEq, Repr

/-- Real-number reading of a finite T60Value; `inf` denotes no real. -/
def T60Value.evalsTo : T60Value → ℝ → Prop
  | .inf, _ => False
  | .val x, y => (x : ℝ) = y
  | .eyring kV S alpha, y => (kV : ℝ) / (-(S : ℝ) * Real.log (1 - (alpha : ℝ))) = y

namespace AbsorptionCalculator

/-- Embedding of calculate_t60_sabine: `inf` on zero absorption, else
`sabine_constant * V / A`. -/
def calculate_t60_sabine (c : AbsorptionCalculator) (frequency : ℕ) : T60Value :=
  let absorption := calculate_total_absorption c frequency
  if absorption = 0 then .inf
  else .val (sabine_constant c * volume c / absorption)

/-- Embedding of calculate_t60_eyring: 0 when `alpha >= 1`, `inf` when
`alpha <= 0`, otherwise the Eyring expression. -/
def calculate_t60_eyring (c : AbsorptionCalculator) (frequency : ℕ) : T60Value :=
  let alpha := calculate_average_alpha c frequency
  if 1 ≤ alpha then .val 0
  else if alpha ≤ 0 then .inf
  else .eyring (sabine_constant c * volume c) (surface_area c) alpha

/-- Embedding of calculate_t60: Eyring when the average coefficient
exceeds 0.2, Sabine otherwise. -/
def calculate_t60 (c : AbsorptionCalculator) (frequency : ℕ) : T60Value :=
  if 0.2 < calculate_average_alpha c frequency then calculate_t60_eyring c frequency
  else calculate_t60_sabine c frequency

/-- Embedding of calculate_required_absorption: always the Sabine
inversion `sabine_constant * V / target`, whatever the regime; the
frequency argument is accepted and ignored, exactly as in the source. -/
def calculate_required_absorption (c : AbsorptionCalculator) (target_t60 : ℚ)
    (_frequency : ℕ) : ℚ :=
  sabine_constant c * volume c / target_t60

/-- Per-band result rows of `analyze`: the four dictionaries keyed by the
six octave centers are embedded as association lists over FREQUENCIES. -/
structure AbsorptionResult where
  current_t60 : List (ℕ × T60Value)
  current_absorption : List (ℕ × ℚ)
  required_absorption : List (ℕ × ℚ)
  missing_absorption : List (ℕ × ℚ)
  room_volume : ℚ
  surface_area : ℚ
deriving Repr

/-- Embedding of the `analyze` loop (treatment recommendations, a textual
policy, are outside every claim and omitted):
`missing[f] = max(0, required[f] - current[f])`. -/
def analyze (c : AbsorptionCalculator) (target_t60 : ℚ) : AbsorptionResult :=
  { current_t60 := FREQUENCIES.map (fun f => (f, calculate_t60 c f))
    current_absorption := FREQUENCIES.map (fun f => (f, calculate_total_absorption c f))
    required_absorption := FREQUENCIES.map
      (fun f => (f, calculate_required_absorption c target_t60 f))
    missing_absorption := FREQUENCIES.map
      (fun f => (f, max 0 (calculate_required_absorption c target_t60 f -
        calculate_total_absorption c f)))
    room_volume := volume c
    surface_area := surface_area c }

end AbsorptionCalculator

/-! ## Reverberation analysis (src/acoustic_fella/core/reverberation.py)

The decay pipeline runs on IEEE floats and one claim is precisely about
NaN propagation, so its carrier type models a float as a rational, an
infinity, or NaN. -/

/-- Float model: exact rational, positive or negative infinity, or NaN. -/
inductive RFloat where
  | nan
  | inf
  | neginf
  | num (x : ℚ)
deriving DecidableEq, Repr

namespace RFloat

/-- IEEE addition on the float model. -/
def fadd : RFloat → RFloat → RFloat
  | nan, _ => nan
  | _, nan => nan
  | inf, neginf => nan
  | neginf, inf => nan
  | inf, _ => inf
  | _, inf => inf
  | neginf, _ => neginf
  | _, neginf => neginf
  | num a, num b => num (a + b)

/-- IEEE multiplication on the float model. -/
def fmul : RFloat → RFloat → RFloat
  | nan, _ => nan
  | _, nan => nan
  | inf, num a => if a = 0 then nan else if 0 < a then inf else neginf
  | num a, inf => if a = 0 then nan else if 0 < a then inf else neginf
  | neginf, num a => if a = 0 then nan else if 0 < a then neginf else inf
  | num a, neginf => if a = 0 then nan else if 0 < a then neginf else inf
  | inf, inf => inf
  | inf, neginf => neginf
  | neginf, inf => neginf
  | neginf, neginf => inf
  | num a, num b => num (a * b)

/-- IEEE division on the float model (zero is treated as +0, which is what
the pipeline produces). -/
def fdiv : RFloat → RFloat → RFloat
  | nan, _ => nan
  | _, nan => nan
  | inf, inf => nan
  | inf, neginf => nan
  | neginf, inf => nan
  | neginf, neginf => nan
  | inf, num a => if 0 ≤ a then inf else neginf
  | neginf, num a => if 0 ≤ a then neginf else inf
  | num _, inf => num 0
  | num _, neginf => num 0
  | num a, num b =>
    if b = 0 then (if a = 0 then nan else if 0 < a then inf else neginf)
    else num (a / b)

/-- numpy maximum: NaN-propagating binary maximum. -/
def fmax : RFloat → RFloat → RFloat
  | nan, _ => nan
  | _, nan => nan
  | inf, _ => inf
  | _, inf => inf
  | neginf, b => b
  | a, neginf => a
  | num a, num b => num (max a b)

/-- Comparison `v <= t` against a rational threshold; false on NaN, as in
IEEE (this is the comparison `decay_curve <= start_db` performs). -/
def fle (v : RFloat) (t : ℚ) : Bool :=
  match v with
  | nan => false
  | inf => false
  | neginf => true
  | num a => a ≤ t

end RFloat

/-- Error raised by a numpy reduction over a zero-size array, the only
exception the decay pipeline can produce. -/
inductive AnalysisError where
  | emptySignal
deriving DecidableEq, Repr

/-- Embedding of the DecayAnalysis result: the four metrics, each `none`
when the float pipeline produced NaN, plus the decay curve itself (the
time-axis field is a deterministic ramp no claim mentions). -/
structure DecayAnalysisResult where
  t60 : Option ℚ
  t30 : Option ℚ
  t20 : Option ℚ
  edt : Option ℚ
  decay_curve : List RFloat
deriving DecidableEq, Repr

namespace ReverberationAnalyzer

/-- numpy cumsum: list of partial sums. -/
def cumsum (l : List RFloat) : List RFloat :=
  (l.scanl RFloat.fadd (.num 0)).tail

/-- Embedding of schroeder_integration: square, reverse-cumsum-reverse,
clamp at 1e-20, convert to dB relative to the first entry.  The base-10
logarithm of a genuine positive float is irrational, so the dB conversion
is a parameter `log10f`; every theorem that uses this definition either
fixes the input so that only NaN reaches the logarithm or quantifies over
all NaN-preserving `log10f`. -/
def schroeder_integration (log10f : RFloat → RFloat) (ir : List RFloat) :
    List RFloat :=
  let squared := ir.map (fun x => RFloat.fmul x x)
  let backwards_sum := (cumsum squared.reverse).reverse
  let clamped := backwards_sum.map (fun b => RFloat.fmax b (.num (1 / 10 ^ 20)))
  match clamped.head? with
  | none => []
  | some b0 => clamped.map (fun b => RFloat.fmul (.num 10) (log10f (RFloat.fdiv b b0)))

/-- Embedding of calculate_decay_time: first index at or below each
threshold; `none` models the NaN returned when a threshold is never
reached; otherwise `(end_idx - start_idx)/rate` scaled by `60/|Δ|`. -/
def calculate_decay_time (sample_rate : ℚ) (decay_curve : List RFloat)
    (start_db end_db : ℚ) : Option ℚ :=
  match decay_curve.findIdx? (fun v => v.fle start_db),
      decay_curve.findIdx? (fun v => v.fle end_db) with
  | some start_idx, some end_idx =>
    some ((((end_idx : ℚ) - (start_idx : ℚ)) / sample_rate) *
      (60 / |end_db - start_db|))
  | _, _ => none

/-- Maximum absolute value of the raw samples, `np.max(np.abs(ir))`. -/
def maxAbs (samples : List ℚ) : ℚ :=
  (samples.map (fun x => |x|)).foldl max 0

/-- Embedding of analyze_impulse_response: normalize by the maximum
absolute sample (a division that silently yields NaN on an all-zero
signal), integrate, then extract T30 (reported as T60), T20 and EDT,
where the source multiplies the already-extrapolated 0 to -10 dB decay
time by a further factor 6. -/
def analyze_impulse_response (log10f : RFloat → RFloat) (sample_rate : ℚ)
    (samples : List ℚ) : Except AnalysisError DecayAnalysisResult :=
  if samples.isEmpty then .error .emptySignal
  else
    let m := maxAbs samples
    let ir := samples.map (fun x => RFloat.fdiv (.num x) (.num m))
    let decay_curve := schroeder_integration log10f ir
    let t30 := calculate_decay_time sample_rate decay_curve (-5) (-35)
    let t20 := calculate_decay_time sample_rate decay_curve (-5) (-25)
    let edt := (calculate_decay_time sample_rate decay_curve 0 (-10)).map (· * 6)
    .ok { t60 := t30, t30 := t30, t20 := t20, edt := edt, decay_curve := decay_curve }

end ReverberationAnalyzer

/-! ## Mode spacing analysis (room_modes.py, analyze_mode_spacing) -/

/-- One cluster dictionary of analyze_mode_spacing: the member
frequencies, their mean, and the member count. -/
structure ModeCluster where
  frequencies : List ℚ
  center : ℚ
  count : ℕ
deriving DecidableEq, Repr

namespace RoomModeCalculator

/-- Embedding of the cluster-detection loop: from each starting index,
take the run of following frequencies within 5 Hz of the starting one;
runs of length at least two become clusters, and scanning resumes after
the run (in the source, `i = j if j > i + 1 else i + 1`, which is the
position after the taken run in both cases). -/
def findClusters : List ℚ → List ModeCluster
  | [] => []
  | f :: rest =>
    let taken := rest.takeWhile (fun g => decide (g - f ≤ 5))
    let rest2 := rest.dropWhile (fun g => decide (g - f ≤ 5))
    (if taken.isEmpty then [] else
      [{ frequencies := f :: taken
         center := (f :: taken).sum / ((f :: taken).length : ℚ)
         count := (f :: taken).length }]) ++ findClusters rest2
termination_by l => l.length
decreasing_by
  simp only [List.length_cons]
  exact Nat.lt_succ_of_le (List.IsSuffix.length_le (List.dropWhile_suffix _))

/-- Spacing list `np.diff(frequencies)`. -/
def diffList : List ℚ → List ℚ
  | [] => []
  | [_] => []
  | a :: b :: t => (b - a) :: diffList (b :: t)

/-- Embedding of the analyze_mode_spacing result dictionary.  The
standard deviation of the spacings is irrational and mentioned by no
claim; it is omitted.  The analysis itself is a pure function of the
mode frequency list. -/
structure SpacingAnalysis where
  total_modes : ℕ
  average_spacing : ℚ
  min_spacing : ℚ
  max_spacing : ℚ
  clusters : List ModeCluster
  problem_frequencies : List ℚ
deriving DecidableEq, Repr

/-- Embedding of analyze_mode_spacing: `none` models the error dictionary
returned for fewer than two modes; `problem_frequencies` keeps the
centers of the clusters with `count >= 3`. -/
def analyze_mode_spacing (frequencies : List ℚ) : Option SpacingAnalysis :=
  if frequencies.length < 2 then none
  else
    let clusters := findClusters frequencies
    let spacings := diffList frequencies
    some
      { total_modes := frequencies.length
        average_spacing := spacings.sum / (spacings.length : ℚ)
        min_spacing := spacings.foldl min spacings.headI
        max_spacing := spacings.foldl max spacings.headI
        clusters := clusters
        problem_frequencies :=
          (clusters.filter (fun c => decide (3 ≤ c.count))).map ModeCluster.center }

end RoomModeCalculator

/-! ## Schroeder transition frequency (src/acoustic_fella/core/schroeder.py) -/

/-- Embedding of the SchroederAnalyzer constructor state; `__init__`
converts an imperial volume to cubic meters by the factor 0.0283168. -/
structure SchroederAnalyzer where
  volume : ℚ
  t60 : ℚ
  use_metric : Bool
deriving DecidableEq, Repr

namespace SchroederAnalyzer

/-- Embedding of `__init__`. -/
def init (volume t60 : ℚ) (use_metric : Bool) : SchroederAnalyzer :=
  { volume := if use_metric then volume else volume * 0.0283168
    t60 := t60
    use_metric := use_metric }

/-- Prop-valued reading of calculate_schroeder_frequency: the method
returns `2000 * sqrt(t60 / volume)`, an irrational real. -/
def schroeder_frequency_is (a : SchroederAnalyzer) (f : ℝ) : Prop :=
  2000 * Real.sqrt ((a.t60 : ℝ) / (a.volume : ℝ)) = f

end SchroederAnalyzer

/-! ## Porous absorber (src/acoustic_fella/core/porous_absorber.py) -/

/-- Model selector of `calculate`: anything other than the Delany-Bazley
name selects Miki (the source tests `model == 'delany_bazley'`). -/
inductive PorousModel where
  | delany_bazley
  | miki
deriving DecidableEq, Repr

/-- Scalar fields of PorousAbsorberResult.  The spectrum arrays involve
irrational powers and hyperbolic functions and are required by no claim;
what matters for the error-handling claim is that a populated result is
returned at all, with the sweep size and the scalar total depth. -/
structure PorousAbsorberResultMeta where
  total_depth_mm : ℚ
  model : PorousModel
  n_points : ℕ
deriving DecidableEq, Repr

namespace PorousAbsorberCalculator

/-- Embedding of the control flow of PorousAbsorberCalculator.calculate:
the method body contains no validation and no conditional raise of any
kind — for every input, including non-positive thickness and non-positive
flow resistivity, it runs the frequency sweep and returns a populated
result (`total_depth_mm = thickness_mm + air_gap_mm`).  The `Except`
wrapper records that no exception path exists in the source. -/
def calculate (thickness_mm _flow_resistivity air_gap_mm : ℚ)
    (model : PorousModel) (n_points : ℕ) :
    Except String PorousAbsorberResultMeta :=
  Except.ok { total_depth_mm := thickness_mm + air_gap_mm
              model := model
              n_points := n_points }

end PorousAbsorberCalculator

/-! ## Helper lemmas on NaN propagation through the decay pipeline -/

namespace ReverberationAnalyzer

theorem fadd_nan_right (z : RFloat) : z.fadd .nan = .nan := by
  cases z <;> rfl

theorem scanl_fadd_replicate_nan (n : ℕ) (z : RFloat) :
    List.scanl RFloat.fadd z (List.replicate n .nan) = z :: List.replicate n .nan := by
  induction n generalizing z with
  | zero => rfl
  | succ m ih =>
    rw [List.replicate_succ, List.scanl_cons, fadd_nan_right, ih]
    rfl

theorem cumsum_replicate_nan (n : ℕ) :
    cumsum (List.replicate n .nan) = List.replicate n .nan := by
  rw [cumsum, scanl_fadd_replicate_nan]
  rfl

theorem schroeder_integration_replicate_nan (log10f : RFloat → RFloat)
    (hlog : log10f .nan = .nan) (n : ℕ) :
    schroeder_integration log10f (List.replicate (n + 1) .nan) =
      List.replicate (n + 1) .nan := by
  have hmul : RFloat.fmul RFloat.nan RFloat.nan = RFloat.nan := rfl
  have hmax : RFloat.fmax RFloat.nan (RFloat.num (1 / 10 ^ 20)) = RFloat.nan := rfl
  have hdiv : RFloat.fdiv RFloat.nan RFloat.nan = RFloat.nan := rfl
  have hten : RFloat.fmul (RFloat.num 10) RFloat.nan = RFloat.nan := rfl
  rw [schroeder_integration]
  simp only [List.map_replicate]
  rw [hmul]
  simp only [List.reverse_replicate, cumsum_replicate_nan, List.map_replicate]
  rw [hmax, List.replicate_succ, List.head?_cons]
  simp only [List.map_cons, List.map_replicate, hdiv, hlog, hten]
  rw [List.replicate_succ]

theorem findIdx?_replicate_nan (n : ℕ) (p : RFloat → Bool) (hp : p .nan = false) :
    (List.replicate n (RFloat.nan)).findIdx? p = none := by
  rw [List.findIdx?_eq_none_iff]
  intro x hx
  rw [List.eq_of_mem_replicate hx, hp]

theorem calculate_decay_time_replicate_nan (sample_rate : ℚ) (n : ℕ)
    (start_db end_db : ℚ) :
    calculate_decay_time sample_rate (List.replicate n .nan) start_db end_db = none := by
  rw [calculate_decay_time, findIdx?_replicate_nan n _ rfl, findIdx?_replicate_nan n _ rfl]

theorem maxAbs_eq_zero {samples : List ℚ} (h : ∀ x ∈ samples, x = 0) :
    maxAbs samples = 0 := by
  rw [maxAbs]
  have : samples.map (fun x => |x|) = List.replicate samples.length 0 := by
    rw [List.eq_replicate_iff]
    refine ⟨by simp, ?_⟩
    intro b hb
    obtain ⟨x, hx, rfl⟩ := List.mem_map.mp hb
    rw [h x hx, abs_zero]
  rw [this]
  induction samples.length with
  | zero => rfl
  | succ m ih => rwa [List.replicate_succ, List.foldl_cons, max_self]

end ReverberationAnalyzer

/-! ## Helper lemma on cluster structure -/

namespace RoomModeCalculator

theorem findClusters_mem {l : List ℚ} {cl : ModeCluster} (h : cl ∈ findClusters l) :
    2 ≤ cl.count ∧ cl.count = cl.frequencies.length ∧
      cl.center = cl.frequencies.sum / (cl.count : ℚ) := by
  induction l using findClusters.induct with
  | case1 => simp [findClusters] at h
  | case2 f rest rest2 ih =>
    rw [findClusters] at h
    rcases List.mem_append.mp h with h1 | h2
    · split at h1
      · simp at h1
      · rename_i htaken
        rw [List.mem_singleton] at h1
        subst h1
        refine ⟨?_, rfl, rfl⟩
        have hlen : (rest.takeWhile (fun g => decide (g - f ≤ 5))).length ≠ 0 := by
          simpa [List.length_eq_zero, List.isEmpty_iff] using htaken
        simp only [List.length_cons]
        omega
    · exact ih h2

end RoomModeCalculator

/-! ## Helper lemmas for the mode enumeration claim -/

/-- Number of non-zero indices of a mode triple (the quantity the claim
classifies by). -/
def nonzeroCount (p q r : ℕ) : ℕ :=
  (if p ≠ 0 then 1 else 0) + (if q ≠ 0 then 1 else 0) + (if r ≠ 0 then 1 else 0)

namespace RoomModeCalculator

theorem modeOfTriple_eq_some {c : RoomModeCalculator} {F : ℚ} {p q r : ℕ} {m : RoomMode}
    (h : modeOfTriple c F (p, q, r) = some m) :
    m = ⟨p, q, r, get_mode_type p q r, calculate_mode_freqSq c p q r⟩ ∧
      ¬(p = 0 ∧ q = 0 ∧ r = 0) ∧ 0 ≤ F ∧ calculate_mode_freqSq c p q r ≤ F ^ 2 := by
  rw [modeOfTriple] at h
  dsimp only at h
  split_ifs at h with h1 h2
  · exact ⟨(Option.some.injEq _ _ ▸ h).symm, h1, h2.1, h2.2⟩

theorem modeOfTriple_eq_some_of {c : RoomModeCalculator} {F : ℚ} {p q r : ℕ}
    (h1 : ¬(p = 0 ∧ q = 0 ∧ r = 0)) (h2 : 0 ≤ F)
    (h3 : calculate_mode_freqSq c p q r ≤ F ^ 2) :
    modeOfTriple c F (p, q, r) =
      some ⟨p, q, r, get_mode_type p q r, calculate_mode_freqSq c p q r⟩ := by
  rw [modeOfTriple]
  dsimp only
  rw [if_neg h1, if_pos ⟨h2, h3⟩]

theorem mem_calculate_all_modes_iff {c : RoomModeCalculator} {F : ℚ} {N : ℕ}
    {m : RoomMode} :
    m ∈ calculate_all_modes c F N ↔
      m.p ≤ N ∧ m.q ≤ N ∧ m.r ≤ N ∧ modeOfTriple c F (m.p, m.q, m.r) = some m := by
  rw [calculate_all_modes]
  rw [List.Perm.mem_iff (List.perm_insertionSort _ _), List.mem_filterMap]
  constructor
  · rintro ⟨⟨p, qr⟩, hmem, hsome⟩
    obtain ⟨q, r⟩ := qr
    obtain ⟨heq, -, -, -⟩ := modeOfTriple_eq_some hsome
    have hp : m.p = p := by rw [heq]
    have hq : m.q = q := by rw [heq]
    have hr : m.r = r := by rw [heq]
    obtain ⟨h1, h23⟩ := List.mem_product.mp hmem
    obtain ⟨h2, h3⟩ := List.mem_product.mp h23
    rw [List.mem_range] at h1 h2 h3
    subst hp; subst hq; subst hr
    exact ⟨by omega, by omega, by omega, hsome⟩
  · rintro ⟨hp, hq, hr, hsome⟩
    refine ⟨(m.p, m.q, m.r), ?_, hsome⟩
    exact List.mem_product.mpr ⟨List.mem_range.mpr (by omega),
      List.mem_product.mpr ⟨List.mem_range.mpr (by omega), List.mem_range.mpr (by omega)⟩⟩

theorem get_mode_type_spec {p q r : ℕ} (hpqr : ¬(p = 0 ∧ q = 0 ∧ r = 0)) :
    (get_mode_type p q r = .axial ↔ nonzeroCount p q r = 1) ∧
    (get_mode_type p q r = .tangential ↔ nonzeroCount p q r = 2) ∧
    (get_mode_type p q r = .oblique ↔ nonzeroCount p q r = 3) := by
  rw [get_mode_type, nonzeroCount]
  rcases Nat.eq_zero_or_pos p with hp | hp <;>
    rcases Nat.eq_zero_or_pos q with hq | hq <;>
    rcases Nat.eq_zero_or_pos r with hr | hr <;>
    simp_all [Nat.pos_iff_ne_zero]

end RoomModeCalculator


namespace RoomModeCalculator

theorem freqSq_cast (c : RoomModeCalculator) (p q r : ℕ) :
    ((calculate_mode_freqSq c p q r : ℚ) : ℝ) =
      ((speed_of_sound c : ℝ) / 2) ^ 2 *
        (((p : ℝ) / (c.length : ℝ)) ^ 2 + ((q : ℝ) / (c.width : ℝ)) ^ 2 +
          ((r : ℝ) / (c.height : ℝ)) ^ 2) := by
  rw [calculate_mode_freqSq]
  push_cast
  ring

theorem sqrt_freqSq {c : RoomModeCalculator} (hc : 0 < speed_of_sound c) (p q r : ℕ) :
    Real.sqrt ((calculate_mode_freqSq c p q r : ℚ)) =
      ((speed_of_sound c : ℝ) / 2) *
        Real.sqrt (((p : ℝ) / (c.length : ℝ)) ^ 2 + ((q : ℝ) / (c.width : ℝ)) ^ 2 +
          ((r : ℝ) / (c.height : ℝ)) ^ 2) := by
  have hc2 : (0 : ℝ) ≤ (speed_of_sound c : ℝ) / 2 := by
    have : (0 : ℝ) < (speed_of_sound c : ℝ) := by exact_mod_cast hc
    linarith
  rw [freqSq_cast, Real.sqrt_mul (sq_nonneg _), Real.sqrt_sq hc2]

theorem freqSq_pos {c : RoomModeCalculator} (hL : 0 < c.length) (hW : 0 < c.width)
    (hH : 0 < c.height) (hc : 0 < speed_of_sound c) {p q r : ℕ}
    (hpqr : ¬(p = 0 ∧ q = 0 ∧ r = 0)) :
    0 < calculate_mode_freqSq c p q r := by
  rw [calculate_mode_freqSq]
  have hsos : speed_of_sound c ≠ 0 := ne_of_gt hc
  apply mul_pos (by positivity)
  have t1 : (0:ℚ) ≤ ((p : ℚ) / c.length) ^ 2 := sq_nonneg _
  have t2 : (0:ℚ) ≤ ((q : ℚ) / c.width) ^ 2 := sq_nonneg _
  have t3 : (0:ℚ) ≤ ((r : ℚ) / c.height) ^ 2 := sq_nonneg _
  have hcase : p ≠ 0 ∨ q ≠ 0 ∨ r ≠ 0 := by tauto
  rcases hcase with hp | hq | hr
  · have : (0:ℚ) < ((p : ℚ) / c.length) ^ 2 := by
      have hp2 : (0:ℚ) < (p : ℚ) := by exact_mod_cast Nat.pos_of_ne_zero hp
      positivity
    linarith
  · have : (0:ℚ) < ((q : ℚ) / c.width) ^ 2 := by
      have hq2 : (0:ℚ) < (q : ℚ) := by exact_mod_cast Nat.pos_of_ne_zero hq
      positivity
    linarith
  · have : (0:ℚ) < ((r : ℚ) / c.height) ^ 2 := by
      have hr2 : (0:ℚ) < (r : ℚ) := by exact_mod_cast Nat.pos_of_ne_zero hr
      positivity
    linarith

theorem freq_le_ceiling_iff {c : RoomModeCalculator} (hL : 0 < c.length)
    (hW : 0 < c.width) (hH : 0 < c.height) (hc : 0 < speed_of_sound c)
    {p q r : ℕ} (hpqr : ¬(p = 0 ∧ q = 0 ∧ r = 0)) (F : ℚ) :
    (((speed_of_sound c : ℝ) / 2) *
        Real.sqrt (((p : ℝ) / (c.length : ℝ)) ^ 2 + ((q : ℝ) / (c.width : ℝ)) ^ 2 +
          ((r : ℝ) / (c.height : ℝ)) ^ 2) ≤ (F : ℝ)) ↔
      (0 ≤ F ∧ calculate_mode_freqSq c p q r ≤ F ^ 2) := by
  rw [← sqrt_freqSq hc]
  have hpos : (0 : ℝ) < ((calculate_mode_freqSq c p q r : ℚ) : ℝ) := by
    exact_mod_cast freqSq_pos hL hW hH hc hpqr
  constructor
  · intro h
    have hF : (0 : ℝ) ≤ (F : ℝ) := ((Real.sqrt_pos.mpr hpos).le.trans h)
    refine ⟨by exact_mod_cast hF, ?_⟩
    have h2 : ((calculate_mode_freqSq c p q r : ℚ) : ℝ) ≤ (F : ℝ) ^ 2 := by
      have hs := Real.sq_sqrt hpos.le
      nlinarith [Real.sqrt_nonneg ((calculate_mode_freqSq c p q r : ℚ) : ℝ)]
    exact_mod_cast h2
  · rintro ⟨hF, hle⟩
    have hle2 : ((calculate_mode_freqSq c p q r : ℚ) : ℝ) ≤ ((F : ℝ)) ^ 2 := by
      exact_mod_cast hle
    calc Real.sqrt ((calculate_mode_freqSq c p q r : ℚ) : ℝ)
        ≤ Real.sqrt ((F : ℝ) ^ 2) := Real.sqrt_le_sqrt hle2
      _ = (F : ℝ) := Real.sqrt_sq (by exact_mod_cast hF)

theorem calculate_all_modes_sorted (c : RoomModeCalculator) (F : ℚ) (N : ℕ) :
    List.Sorted modeLE (calculate_all_modes c F N) := by
  rw [calculate_all_modes]
  exact List.sorted_insertionSort _ _

theorem calculate_all_modes_nodup_triples (c : RoomModeCalculator) (F : ℚ) (N : ℕ) :
    ((calculate_all_modes c F N).map (fun m => (m.p, m.q, m.r))).Nodup := by
  rw [calculate_all_modes]
  set l0 := (((List.range (N+1)).product ((List.range (N+1)).product
    (List.range (N+1)))).filterMap (modeOfTriple c F)) with hl0
  have hperm := List.perm_insertionSort modeLE l0
  apply (List.Perm.nodup_iff (List.Perm.map _ hperm)).mpr
  have hnods : l0.Nodup := by
    apply List.Nodup.filterMap
    · intro t1 t2 m2 h1 h2
      obtain ⟨p1, q1, r1⟩ := t1
      obtain ⟨p2, q2, r2⟩ := t2
      rw [Option.mem_def] at h1 h2
      obtain ⟨he1, -, -, -⟩ := modeOfTriple_eq_some h1
      obtain ⟨he2, -, -, -⟩ := modeOfTriple_eq_some h2
      rw [he1] at he2
      simp only [RoomMode.mk.injEq] at he2
      simp only [Prod.mk.injEq]
      exact ⟨he2.1, he2.2.1, he2.2.2.1⟩
    · exact List.Nodup.product (List.nodup_range _)
        (List.Nodup.product (List.nodup_range _) (List.nodup_range _))
  have hcanon : ∀ x ∈ l0, x = ⟨x.p, x.q, x.r, get_mode_type x.p x.q x.r,
      calculate_mode_freqSq c x.p x.q x.r⟩ := by
    intro x hx
    obtain ⟨t, -, hsx⟩ := List.mem_filterMap.mp hx
    obtain ⟨p, q, r⟩ := t
    obtain ⟨hex, -, -, -⟩ := modeOfTriple_eq_some hsx
    have hp : x.p = p := congrArg RoomMode.p hex
    have hq : x.q = q := congrArg RoomMode.q hex
    have hr : x.r = r := congrArg RoomMode.r hex
    rw [← hp, ← hq, ← hr] at hex
    exact hex
  refine List.Nodup.map_on ?_ hnods
  intro x hx y hy hxy
  simp only [Prod.mk.injEq] at hxy
  rw [hcanon x hx, hcanon y hy, hxy.1, hxy.2.1, hxy.2.2]

end RoomModeCalculator

/-! ## Claim theorems -/

open RoomModeCalculator

/-- Claim C1 (confirmed).  For every geometry with positive dimensions
and positive temperature-corrected speed of sound, every ceiling F and
every order N, `calculate_all_modes` returns exactly the modes (p,q,r)
with p,q,r at most N, not all zero, whose Rayleigh frequency
`(c/2)*sqrt((p/L)^2+(q/W)^2+(r/H)^2)` is at most F, where
`c = 331.3 + 0.606*T` (times 3.281 for imperial input); each mode is
classified axial/tangential/oblique by whether exactly 1, 2 or 3 indices
are non-zero; the list is sorted by ascending frequency and contains each
index triple at most once. -/
theorem claim_C1 (c : RoomModeCalculator) (hL : 0 < c.length) (hW : 0 < c.width)
    (hH : 0 < c.height) (hc : 0 < speed_of_sound c) (F : ℚ) (N : ℕ) :
    (c.use_metric = true → speed_of_sound c = 331.3 + 0.606 * c.temperature_c) ∧
    (c.use_metric = false →
      speed_of_sound c = (331.3 + 0.606 * c.temperature_c) * 3.281) ∧
    (∀ p q r : ℕ,
      (∃ m ∈ calculate_all_modes c F N, m.p = p ∧ m.q = q ∧ m.r = r) ↔
        (p ≤ N ∧ q ≤ N ∧ r ≤ N ∧ ¬(p = 0 ∧ q = 0 ∧ r = 0) ∧
          ((speed_of_sound c : ℝ) / 2) *
            Real.sqrt (((p : ℝ) / (c.length : ℝ)) ^ 2 + ((q : ℝ) / (c.width : ℝ)) ^ 2 +
              ((r : ℝ) / (c.height : ℝ)) ^ 2) ≤ (F : ℝ))) ∧
    (∀ m ∈ calculate_all_modes c F N,
      m.freqSq = calculate_mode_freqSq c m.p m.q m.r ∧
      (m.mode_type = .axial ↔ nonzeroCount m.p m.q m.r = 1) ∧
      (m.mode_type = .tangential ↔ nonzeroCount m.p m.q m.r = 2) ∧
      (m.mode_type = .oblique ↔ nonzeroCount m.p m.q m.r = 3)) ∧
    List.Sorted (fun a b : RoomMode =>
      ((speed_of_sound c : ℝ) / 2) *
        Real.sqrt (((a.p : ℝ) / (c.length : ℝ)) ^ 2 + ((a.q : ℝ) / (c.width : ℝ)) ^ 2 +
          ((a.r : ℝ) / (c.height : ℝ)) ^ 2) ≤
      ((speed_of_sound c : ℝ) / 2) *
        Real.sqrt (((b.p : ℝ) / (c.length : ℝ)) ^ 2 + ((b.q : ℝ) / (c.width : ℝ)) ^ 2 +
          ((b.r : ℝ) / (c.height : ℝ)) ^ 2)) (calculate_all_modes c F N) ∧
    ((calculate_all_modes c F N).map (fun m => (m.p, m.q, m.r))).Nodup := by
  refine ⟨fun hm => by rw [speed_of_sound, if_pos hm],
    fun hm => by rw [speed_of_sound, if_neg (by simp [hm])],
    ?_, ?_, ?_, ?_⟩
  · intro p q r
    constructor
    · rintro ⟨m, hm, hp, hq, hr⟩
      rw [mem_calculate_all_modes_iff] at hm
      obtain ⟨hpN, hqN, hrN, hsome⟩ := hm
      subst hp; subst hq; subst hr
      obtain ⟨-, hnz, hF, hle⟩ := modeOfTriple_eq_some hsome
      exact ⟨hpN, hqN, hrN, hnz, (freq_le_ceiling_iff hL hW hH hc hnz F).mpr ⟨hF, hle⟩⟩
    · rintro ⟨hpN, hqN, hrN, hnz, hfreq⟩
      obtain ⟨hF, hle⟩ := (freq_le_ceiling_iff hL hW hH hc hnz F).mp hfreq
      refine ⟨⟨p, q, r, get_mode_type p q r, calculate_mode_freqSq c p q r⟩, ?_, rfl, rfl, rfl⟩
      rw [mem_calculate_all_modes_iff]
      exact ⟨hpN, hqN, hrN, modeOfTriple_eq_some_of hnz hF hle⟩
  · intro m hm
    rw [mem_calculate_all_modes_iff] at hm
    obtain ⟨-, -, -, hsome⟩ := hm
    obtain ⟨heq, hnz, -, -⟩ := modeOfTriple_eq_some hsome
    refine ⟨congrArg RoomMode.freqSq heq, ?_⟩
    rw [show m.mode_type = get_mode_type m.p m.q m.r from congrArg RoomMode.mode_type heq]
    exact get_mode_type_spec hnz
  · have hs : List.Sorted modeLE (calculate_all_modes c F N) :=
      calculate_all_modes_sorted c F N
    refine List.Pairwise.imp_of_mem ?_ hs
    intro a b ha hb hab
    obtain ⟨-, -, -, hsa⟩ := mem_calculate_all_modes_iff.mp ha
    obtain ⟨heqa, -, -, -⟩ := modeOfTriple_eq_some hsa
    obtain ⟨-, -, -, hsb⟩ := mem_calculate_all_modes_iff.mp hb
    obtain ⟨heqb, -, -, -⟩ := modeOfTriple_eq_some hsb
    have ha2 : a.freqSq = calculate_mode_freqSq c a.p a.q a.r :=
      congrArg RoomMode.freqSq heqa
    have hb2 : b.freqSq = calculate_mode_freqSq c b.p b.q b.r :=
      congrArg RoomMode.freqSq heqb
    rw [← sqrt_freqSq hc, ← sqrt_freqSq hc, ← ha2, ← hb2]
    have hcast : (a.freqSq : ℝ) ≤ (b.freqSq : ℝ) := by exact_mod_cast hab
    exact Real.sqrt_le_sqrt hcast
  · exact calculate_all_modes_nodup_triples c F N

/-- Witness for claim C1 at the 4 by 3 by 2.5 m metric room at 20 C. -/
theorem claim_C1_witness :
    (0 : ℚ) < 4 ∧ (0 : ℚ) < 3 ∧ (0 : ℚ) < 5/2 ∧
    0 < speed_of_sound ⟨4, 3, 5/2, true, 20⟩ ∧
    ((calculate_all_modes ⟨4, 3, 5/2, true, 20⟩ 100 5).map
      (fun m => (m.p, m.q, m.r))).Nodup :=
  ⟨by norm_num, by norm_num, by norm_num,
   by norm_num [speed_of_sound],
   (claim_C1 ⟨4, 3, 5/2, true, 20⟩ (by norm_num) (by norm_num) (by norm_num)
     (by norm_num [speed_of_sound]) 100 5).2.2.2.2.2⟩

/-- Claim C3 (code bug).  The claim states that the reported EDT is 6 times
the raw 0 to -10 dB decay time.  In the source, `calculate_decay_time`
already extrapolates by `60/|end-start| = 6`, and `analyze_impulse_response`
multiplies its result by a further 6, so the reported EDT is 36 times the
raw decay time.  First conjunct: for every input, the reported EDT field
is the already-extrapolated decay time of the produced curve times 6.
Remaining conjuncts evaluate the failing input: a decay curve hitting
0 dB at index 0 and -12 dB at index 1 at 1 Hz sample rate has raw decay
time 1 s; `calculate_decay_time` returns 6 and the reported EDT is 36,
not the 6 the claim requires. -/
theorem claim_C3 :
    (∀ (log10f : RFloat → RFloat) (sample_rate : ℚ) (samples : List ℚ),
      (ReverberationAnalyzer.analyze_impulse_response log10f sample_rate samples).toOption.map
          DecayAnalysisResult.edt =
        (ReverberationAnalyzer.analyze_impulse_response log10f sample_rate samples).toOption.map
          (fun R => (ReverberationAnalyzer.calculate_decay_time sample_rate
            R.decay_curve 0 (-10)).map (· * 6))) ∧
    ReverberationAnalyzer.calculate_decay_time 1 [.num 0, .num (-12)] 0 (-10) = some 6 ∧
    Option.map (· * 6)
      (ReverberationAnalyzer.calculate_decay_time 1 [.num 0, .num (-12)] 0 (-10)) = some 36 := by
  refine ⟨fun log10f sample_rate samples => ?_, ?_, ?_⟩
  · rw [ReverberationAnalyzer.analyze_impulse_response]
    by_cases h : samples.isEmpty <;> simp [h, Except.toOption]
  · norm_num [ReverberationAnalyzer.calculate_decay_time, RFloat.fle]
  · norm_num [ReverberationAnalyzer.calculate_decay_time, RFloat.fle]

/-- Claim C4 (confirmed).  The transition frequency returned by the
analyzer constructed from volume `V` and reverberation time `T60` is
`2000 * sqrt(T60 / V)`, with an imperial volume first converted to cubic
meters by the factor 0.0283168; and for `V = 30` cubic meters and
`T60 = 0.3` s the result is exactly 200 Hz. -/
theorem claim_C4 :
    (∀ (volume t60 : ℚ) (use_metric : Bool),
      SchroederAnalyzer.schroeder_frequency_is (SchroederAnalyzer.init volume t60 use_metric)
        (2000 * Real.sqrt ((t60 : ℝ) /
          (if use_metric then (volume : ℝ) else (volume : ℝ) * 0.0283168)))) ∧
    SchroederAnalyzer.schroeder_frequency_is (SchroederAnalyzer.init 30 0.3 true) 200 := by
  constructor
  · intro volume t60 use_metric
    rw [SchroederAnalyzer.schroeder_frequency_is, SchroederAnalyzer.init]
    cases use_metric <;> push_cast <;> norm_num
  · rw [SchroederAnalyzer.schroeder_frequency_is, SchroederAnalyzer.init]
    rw [show (((0.3 : ℚ) : ℝ) / ((if true then (30 : ℚ) else 30 * 0.0283168 : ℚ) : ℝ))
        = (1 / 10 : ℝ) ^ 2 by push_cast; norm_num]
    rw [Real.sqrt_sq (by norm_num)]
    norm_num

/-- Claim C5 (code bug).  The claim states that non-positive thickness or
flow resistivity is rejected before the frequency sweep.  The source
performs no validation at all: the call below, with thickness -50 mm and
flow resistivity -1000, runs the sweep and returns a populated numeric
result. -/
theorem claim_C5 :
    PorousAbsorberCalculator.calculate (-50) (-1000) 0 .miki 500 =
      Except.ok { total_depth_mm := -50, model := .miki, n_points := 500 } := by
  rw [PorousAbsorberCalculator.calculate]
  norm_num

/-- Claim C6 (code bug).  The claim states that construction of the
room-mode engine with a non-positive dimension is rejected.  The source
constructor performs no validation: constructing with length -1 succeeds
and stores the negative dimension. -/
theorem claim_C6 :
    RoomModeCalculator.init (-1) 3 (5/2) true 20 =
      Except.ok { length := -1, width := 3, height := 5/2, use_metric := true,
                  temperature_c := 20 } := rfl

/-- Claim C8 (confirmed).  If the decay curve never reaches the start
threshold, or never reaches the end threshold, the decay-time metric is
the NaN sentinel (modelled as `none`), never a finite value. -/
theorem claim_C8 (sample_rate : ℚ) (decay_curve : List RFloat) (start_db end_db : ℚ)
    (h : (∀ v ∈ decay_curve, v.fle start_db = false) ∨
      (∀ v ∈ decay_curve, v.fle end_db = false)) :
    ReverberationAnalyzer.calculate_decay_time sample_rate decay_curve start_db end_db
      = none := by
  rw [ReverberationAnalyzer.calculate_decay_time]
  rcases h with h | h
  · rw [List.findIdx?_eq_none_iff.mpr h]
  · rw [List.findIdx?_eq_none_iff.mpr h]
    cases decay_curve.findIdx? (fun v => v.fle start_db) <;> rfl

/-- Witness for claim C8: a curve that never falls to -5 dB yields `none`
for the T30 thresholds. -/
theorem claim_C8_witness :
    (∀ v ∈ ([.num 0, .num (-3)] : List RFloat), v.fle (-5) = false) ∧
    ReverberationAnalyzer.calculate_decay_time 48000 [.num 0, .num (-3)] (-5) (-35)
      = none :=
  ⟨by norm_num [RFloat.fle],
   claim_C8 48000 [.num 0, .num (-3)] (-5) (-35) (Or.inl (by norm_num [RFloat.fle]))⟩

/-- Claim C2 (confirmed).  For every room and octave-band frequency, the
reported T60 is the Eyring value `k*V / (-S*ln(1-alpha))` when the average
absorption coefficient exceeds 0.2, the Sabine value `k*V/A` otherwise;
a zero total absorption yields plus infinity, an average coefficient of
at least 1 in the Eyring regime yields 0, and the constant `k` is 0.161
metric and 0.049 imperial. -/
theorem claim_C2 (c : AbsorptionCalculator) (frequency : ℕ)
    (hS : 0 < c.surface_area) :
    (0.2 < c.calculate_average_alpha frequency →
      c.calculate_average_alpha frequency < 1 →
      (c.calculate_t60 frequency).evalsTo
        ((c.sabine_constant : ℝ) * (c.volume : ℝ) /
          (-(c.surface_area : ℝ) *
            Real.log (1 - (c.calculate_average_alpha frequency : ℝ))))) ∧
    (0.2 < c.calculate_average_alpha frequency →
      1 ≤ c.calculate_average_alpha frequency →
      c.calculate_t60 frequency = .val 0) ∧
    (c.calculate_average_alpha frequency ≤ 0.2 →
      c.calculate_total_absorption frequency ≠ 0 →
      c.calculate_t60 frequency =
        .val (c.sabine_constant * c.volume / c.calculate_total_absorption frequency)) ∧
    (c.calculate_total_absorption frequency = 0 → c.calculate_t60 frequency = .inf) ∧
    c.sabine_constant = (if c.use_metric then 0.161 else 0.049) := by
  refine ⟨?_, ?_, ?_, ?_, rfl⟩
  · intro h1 h2
    rw [AbsorptionCalculator.calculate_t60, if_pos h1]
    simp only [AbsorptionCalculator.calculate_t60_eyring]
    rw [if_neg (by linarith), if_neg (by linarith)]
    simp only [T60Value.evalsTo]
    push_cast
    ring
  · intro h1 h2
    rw [AbsorptionCalculator.calculate_t60, if_pos h1]
    simp only [AbsorptionCalculator.calculate_t60_eyring]
    rw [if_pos h2]
  · intro h1 h2
    rw [AbsorptionCalculator.calculate_t60, if_neg (not_lt.mpr h1)]
    simp only [AbsorptionCalculator.calculate_t60_sabine]
    rw [if_neg h2]
  · intro h0
    have hα : c.calculate_average_alpha frequency = 0 := by
      rw [AbsorptionCalculator.calculate_average_alpha, h0, zero_div]
    rw [AbsorptionCalculator.calculate_t60, if_neg (by rw [hα]; norm_num)]
    simp only [AbsorptionCalculator.calculate_t60_sabine]
    rw [if_pos h0]

/-- Witness for claim C2: the default 4 by 3 by 2.5 m room has positive
surface area 59, its average coefficient at 500 Hz is 71/1180 (below 0.2,
Sabine regime) and the reported T60 is `0.161*30/3.55 = 483/355` s. -/
theorem claim_C2_witness :
    (0 : ℚ) < (AbsorptionCalculator.init 4 3 (5/2) true).surface_area ∧
    AbsorptionCalculator.calculate_t60 (AbsorptionCalculator.init 4 3 (5/2) true) 500 =
      T60Value.val (483/355) := by
  have hA : (AbsorptionCalculator.init 4 3 (5/2) true).calculate_total_absorption 500
      = 71/20 := by
    rw [AbsorptionCalculator.calculate_total_absorption, AbsorptionCalculator.init]
    simp only [List.map, List.sum_cons, List.sum_nil, Surface.get_absorption,
      show absorptionCoefficient .hardwood 500 = 0.10 from rfl,
      show absorptionCoefficient .drywall 500 = 0.05 from rfl]
    norm_num
  have hS : (0 : ℚ) < (AbsorptionCalculator.init 4 3 (5/2) true).surface_area := by
    norm_num [AbsorptionCalculator.init, AbsorptionCalculator.surface_area]
  have halpha : (AbsorptionCalculator.init 4 3 (5/2) true).calculate_average_alpha 500
      = 71/1180 := by
    rw [AbsorptionCalculator.calculate_average_alpha, hA]
    norm_num [AbsorptionCalculator.surface_area, AbsorptionCalculator.init]
  refine ⟨hS, ?_⟩
  have h := (claim_C2 (AbsorptionCalculator.init 4 3 (5/2) true) 500 hS).2.2.1
    (by rw [halpha]; norm_num) (by rw [hA]; norm_num)
  rw [h, hA]
  norm_num [AbsorptionCalculator.sabine_constant, AbsorptionCalculator.volume,
    AbsorptionCalculator.init, T60Value.val.injEq]

/-- Claim C9 (confirmed).  For every room, target T60 above zero and
octave band, the required absorption is the Sabine inversion
`k*V/target`, unchanged under any reassignment of surface materials
(hence irrespective of the Eyring/Sabine regime), and the missing
absorption per band reported by `analyze` is
`max 0 (required - current)`. -/
theorem claim_C9 (c : AbsorptionCalculator) (target_t60 : ℚ) (htgt : 0 < target_t60)
    (freq : ℕ) (hf : freq ∈ AbsorptionCalculator.FREQUENCIES)
    (c2 : AbsorptionCalculator) (hl : c2.length = c.length) (hw : c2.width = c.width)
    (hh : c2.height = c.height) (hm : c2.use_metric = c.use_metric) :
    c.calculate_required_absorption target_t60 freq =
      c.sabine_constant * c.volume / target_t60 ∧
    c2.calculate_required_absorption target_t60 freq =
      c.calculate_required_absorption target_t60 freq ∧
    (freq, c.sabine_constant * c.volume / target_t60) ∈
      (c.analyze target_t60).required_absorption ∧
    (freq, max 0 (c.calculate_required_absorption target_t60 freq -
        c.calculate_total_absorption freq)) ∈
      (c.analyze target_t60).missing_absorption := by
  refine ⟨rfl, ?_, ?_, ?_⟩
  · rw [AbsorptionCalculator.calculate_required_absorption,
      AbsorptionCalculator.calculate_required_absorption,
      AbsorptionCalculator.sabine_constant, AbsorptionCalculator.sabine_constant,
      AbsorptionCalculator.volume, AbsorptionCalculator.volume, hl, hw, hh, hm]
  · simp only [AbsorptionCalculator.analyze]
    exact List.mem_map.mpr ⟨freq, hf, rfl⟩
  · simp only [AbsorptionCalculator.analyze]
    exact List.mem_map.mpr ⟨freq, hf, rfl⟩

/-- An all-acoustic-tile surface assignment for the default room: its
average coefficient 0.4 at 500 Hz puts it in the Eyring regime, yet the
required absorption matches the default room with the same geometry. -/
def c9Tile : AbsorptionCalculator :=
  { length := 4, width := 3, height := 5/2, use_metric := true,
    surfaces := [⟨59, .acoustic_tile⟩] }

/-- Witness for claim C9 at the default room, target 0.3 s, 500 Hz, with
the Eyring-regime tile room as the alternative surface assignment. -/
theorem claim_C9_witness :
    (0 : ℚ) < 0.3 ∧ 500 ∈ AbsorptionCalculator.FREQUENCIES ∧
    c9Tile.calculate_required_absorption 0.3 500 =
      (AbsorptionCalculator.init 4 3 (5/2) true).calculate_required_absorption 0.3 500 :=
  ⟨by norm_num, by decide,
   (claim_C9 (AbsorptionCalculator.init 4 3 (5/2) true) 0.3 (by norm_num) 500
     (by decide) c9Tile rfl rfl rfl rfl).2.1⟩

/-- Claim C7, amended (corrected).  The spacing analysis groups
consecutive modes within 5 Hz of a cluster start into clusters (each
recorded cluster has at least two members, its count is the member count
and its center their mean), and reports in `problem_frequencies` the
center of every cluster of size at least 3 — not of every cluster of
size at least 2 as the claim states (see the counterexample). -/
theorem claim_C7 (frequencies : List ℚ) (R : RoomModeCalculator.SpacingAnalysis)
    (hR : RoomModeCalculator.analyze_mode_spacing frequencies = some R) :
    ∀ cl ∈ R.clusters,
      (2 ≤ cl.count ∧ cl.count = cl.frequencies.length ∧
        cl.center = cl.frequencies.sum / (cl.count : ℚ)) ∧
      (3 ≤ cl.count → cl.center ∈ R.problem_frequencies) := by
  rw [RoomModeCalculator.analyze_mode_spacing] at hR
  split at hR
  · exact absurd hR (by simp)
  · injection hR with hR
    subst hR
    intro cl hcl
    simp only at hcl
    refine ⟨RoomModeCalculator.findClusters_mem hcl, fun h3 => ?_⟩
    simp only
    exact List.mem_map.mpr ⟨cl, List.mem_filter.mpr ⟨hcl, by simpa using h3⟩, rfl⟩

/-- Concrete spacing analysis of the three-frequency list 0, 1, 2 Hz:
one cluster of three members centered at 1 Hz, reported as a problem
frequency. -/
def c7WitnessAnalysis : RoomModeCalculator.SpacingAnalysis :=
  ⟨3, 1, 1, 1, [⟨[0, 1, 2], 1, 3⟩], [1]⟩

/-- Witness for the amended claim C7: the cluster of size 3 at center
1 Hz is reported in `problem_frequencies`. -/
theorem claim_C7_witness :
    RoomModeCalculator.analyze_mode_spacing [0, 1, 2] = some c7WitnessAnalysis ∧
    (1 : ℚ) ∈ c7WitnessAnalysis.problem_frequencies := by
  have hR : RoomModeCalculator.analyze_mode_spacing [0, 1, 2] = some c7WitnessAnalysis := by
    norm_num [RoomModeCalculator.analyze_mode_spacing, RoomModeCalculator.findClusters,
      RoomModeCalculator.diffList, List.takeWhile, List.dropWhile, c7WitnessAnalysis]
  refine ⟨hR, ?_⟩
  have h := (claim_C7 [0, 1, 2] c7WitnessAnalysis hR ⟨[0, 1, 2], 1, 3⟩
    (by simp [c7WitnessAnalysis])).2 (by norm_num)
  simpa [c7WitnessAnalysis] using h

/-- A 2 by 2.1 by 0.01 m room whose only two modes below 90 Hz are the
axial (0,1,0) at 2453/30 Hz and the axial (1,0,0) at 17171/200 Hz,
4.09 Hz apart: one cluster of exactly two modes. -/
def c7Room : RoomModeCalculator := ⟨2, 21/10, 1/100, true, 20⟩

/-- The two-mode cluster produced for `c7Room`. -/
def c7Cluster : ModeCluster := ⟨[2453/30, 17171/200], 100573/1200, 2⟩

/-- The spacing analysis of the `c7Room` frequency list. -/
def c7Analysis : RoomModeCalculator.SpacingAnalysis :=
  ⟨2, 2453/600, 2453/600, 2453/600, [c7Cluster], []⟩

/-- Counterexample to claim C7 as stated: for the enumerated mode set of
`c7Room` (ceiling 90 Hz, order 1) — whose real frequencies are exactly
2453/30 and 17171/200 Hz — the spacing analysis produces one cluster of
size 2, and its center does NOT appear in `problem_frequencies`, which
is empty (the source requires `count >= 3`). -/
theorem claim_C7_counterexample :
    RoomModeCalculator.calculate_all_modes c7Room 90 1 =
      [⟨0, 1, 0, .axial, 6017209/900⟩, ⟨1, 0, 0, .axial, 294843241/40000⟩] ∧
    ((RoomModeCalculator.speed_of_sound c7Room : ℝ) / 2) *
      Real.sqrt (((0 : ℝ) / (c7Room.length : ℝ)) ^ 2 + ((1 : ℝ) / (c7Room.width : ℝ)) ^ 2 +
        ((0 : ℝ) / (c7Room.height : ℝ)) ^ 2) = 2453/30 ∧
    ((RoomModeCalculator.speed_of_sound c7Room : ℝ) / 2) *
      Real.sqrt (((1 : ℝ) / (c7Room.length : ℝ)) ^ 2 + ((0 : ℝ) / (c7Room.width : ℝ)) ^ 2 +
        ((0 : ℝ) / (c7Room.height : ℝ)) ^ 2) = 17171/200 ∧
    RoomModeCalculator.analyze_mode_spacing [2453/30, 17171/200] = some c7Analysis ∧
    ¬ (∀ cl ∈ c7Analysis.clusters, 2 ≤ cl.count →
        cl.center ∈ c7Analysis.problem_frequencies) := by
  refine ⟨?_, ?_, ?_, ?_, ?_⟩
  · norm_num [RoomModeCalculator.calculate_all_modes, RoomModeCalculator.modeOfTriple,
      RoomModeCalculator.calculate_mode_freqSq, RoomModeCalculator.speed_of_sound,
      List.product, List.range, List.range.loop, RoomModeCalculator.get_mode_type,
      List.insertionSort, List.orderedInsert, RoomModeCalculator.modeLE,
      List.filterMap_cons, c7Room]
  · rw [show ((0 : ℝ) / (c7Room.length : ℝ)) ^ 2 + ((1 : ℝ) / (c7Room.width : ℝ)) ^ 2 +
        ((0 : ℝ) / (c7Room.height : ℝ)) ^ 2 = (10/21 : ℝ) ^ 2 by norm_num [c7Room],
      Real.sqrt_sq (by norm_num)]
    norm_num [c7Room, RoomModeCalculator.speed_of_sound]
  · rw [show ((1 : ℝ) / (c7Room.length : ℝ)) ^ 2 + ((0 : ℝ) / (c7Room.width : ℝ)) ^ 2 +
        ((0 : ℝ) / (c7Room.height : ℝ)) ^ 2 = (1/2 : ℝ) ^ 2 by norm_num [c7Room],
      Real.sqrt_sq (by norm_num)]
    norm_num [c7Room, RoomModeCalculator.speed_of_sound]
  · norm_num [RoomModeCalculator.analyze_mode_spacing, RoomModeCalculator.findClusters,
      RoomModeCalculator.diffList, List.takeWhile, List.dropWhile, c7Analysis, c7Cluster]
  · intro h
    have hmem := h c7Cluster (by simp [c7Analysis]) (by norm_num [c7Cluster])
    simp [c7Analysis, c7Cluster] at hmem

/-- Claim C10 (confirmed).  For every non-empty, all-zero impulse response
the decay analysis raises no invalid-input condition: normalization
divides by a maximum absolute value of zero, the decay curve becomes
all-NaN, and every reported decay metric (T60/T30/T20/EDT) is the NaN
sentinel, silently.  The dB conversion `log10f` is quantified over all
NaN-preserving functions, which the numpy log10 is. -/
theorem claim_C10 (log10f : RFloat → RFloat) (hlog : log10f .nan = .nan)
    (sample_rate : ℚ) (samples : List ℚ) (hne : samples ≠ [])
    (hzero : ∀ x ∈ samples, x = 0) :
    ReverberationAnalyzer.analyze_impulse_response log10f sample_rate samples =
      Except.ok { t60 := none, t30 := none, t20 := none, edt := none,
                  decay_curve := List.replicate samples.length .nan } := by
  obtain ⟨s, rest, rfl⟩ : ∃ s rest, samples = s :: rest := by
    cases samples with
    | nil => exact absurd rfl hne
    | cons s rest => exact ⟨s, rest, rfl⟩
  rw [ReverberationAnalyzer.analyze_impulse_response]
  rw [if_neg (by simp)]
  have hmax : ReverberationAnalyzer.maxAbs (s :: rest) = 0 :=
    ReverberationAnalyzer.maxAbs_eq_zero hzero
  have hir : (s :: rest).map
      (fun x => RFloat.fdiv (.num x) (.num (ReverberationAnalyzer.maxAbs (s :: rest)))) =
      List.replicate (s :: rest).length .nan := by
    rw [List.eq_replicate_iff]
    refine ⟨by simp, ?_⟩
    intro b hb
    obtain ⟨x, hx, rfl⟩ := List.mem_map.mp hb
    rw [hzero x hx, hmax]
    norm_num [RFloat.fdiv]
  simp only [hir, List.length_cons,
    ReverberationAnalyzer.schroeder_integration_replicate_nan log10f hlog rest.length,
    ReverberationAnalyzer.calculate_decay_time_replicate_nan, Option.map_none']

/-- Witness for claim C10 at the all-zero three-sample signal, with the
identity function as the NaN-preserving dB conversion. -/
theorem claim_C10_witness :
    (id RFloat.nan = RFloat.nan) ∧ (([0, 0, 0] : List ℚ) ≠ []) ∧
    (∀ x ∈ ([0, 0, 0] : List ℚ), x = 0) ∧
    ReverberationAnalyzer.analyze_impulse_response id 48000 [0, 0, 0] =
      Except.ok { t60 := none, t30 := none, t20 := none, edt := none,
                  decay_curve := [.nan, .nan, .nan] } :=
  ⟨rfl, by simp, by simp,
   claim_C10 id rfl 48000 [0, 0, 0] (by simp) (by simp)⟩

end AcFella
